import Mathlib

/-!
Verification of the autotrader scraping pipeline (scrape.py).

The embedding models Python strings as lists of characters (PyStr), JSON
values as an inductive type, Python dictionaries as ordered association
lists, and Python exceptions as an error type carried in an Except monad.
Each definition is a direct translation of the corresponding function in
src/autotrader_scraper/scrape.py.  HTML pages are modelled by the pieces
the code actually consumes from BeautifulSoup: the list of script tags
(attribute type, text) and the list of anchor tags (class list, optional
href), both in document order.  Each script tag is modelled with a single
text child, so its contents[0] equals its text.
-/

/-- Python strings, modelled as lists of unicode characters. -/
abbrev PyStr := List Char

/-- JSON values as produced by json.loads.  Numbers are modelled as
integers; the payloads of interest in the claims use the integer subset. -/
inductive Json where
| null : Json
| bool (b : Bool) : Json
| num (n : Int) : Json
| str (s : String) : Json
| arr (elems : List Json) : Json
| obj (members : List (String × Json)) : Json

/-- Python exceptions raised (or merely named by the spec) around the
extraction pipeline.  missingStructuredData is modelled from the spec: it
names the explicit error the spec demands on a missing structured-data
block; the code itself never raises it. -/
inductive PyErr where
| indexError : PyErr
| keyError : PyErr
| typeError : PyErr
| attributeError : PyErr
| jsonDecodeError : PyErr
| missingStructuredData : PyErr
deriving DecidableEq

/-- A Python dict with string keys, in insertion order. -/
abbrev Record := List (String × Json)

/-- Lookup in a dict: value of the first entry with the given key. -/
def dictGet : Record → String → Option Json
  | [], _ => none
  | (k', v) :: rest, k => if k' == k then some v else dictGet rest k

/-- Python dict item assignment d[k] = v: replace the value in place if the
key exists, otherwise append the new entry. -/
def dictSet : Record → String → Json → Record
  | [], k, v => [(k, v)]
  | (k', v') :: rest, k, v =>
    if k' == k then (k', v) :: rest else (k', v') :: dictSet rest k v

/-- Python dict.update: assign every entry of the other dict in order. -/
def dictUpdate (d : Record) (other : Record) : Record :=
  other.foldl (fun acc kv => dictSet acc kv.1 kv.2) d

/-- Python subscript json_data[k]: KeyError when the key is missing,
TypeError when the receiver is not a dict. -/
def pyIndex (j : Json) (k : String) : Except PyErr Json :=
  match j with
  | Json.obj m =>
    match dictGet m k with
    | some v => Except.ok v
    | none => Except.error PyErr.keyError
  | _ => Except.error PyErr.typeError

/-- Python json_data.get(k, default): never fails on a dict; raises
AttributeError when the receiver is not a dict. -/
def pyGet (j : Json) (k : String) (d : Json) : Except PyErr Json :=
  match j with
  | Json.obj m => Except.ok ((dictGet m k).getD d)
  | _ => Except.error PyErr.attributeError

/-- Sequencing of Python expressions that may raise: the first raised
exception propagates. -/
def pyBind (x : Except PyErr α) (f : α → Except PyErr β) : Except PyErr β :=
  match x with
  | Except.error e => Except.error e
  | Except.ok v => f v

/-- Skip JSON whitespace. -/
def skipWs : PyStr → PyStr
  | c :: s =>
    if c == ' ' || c == '\t' || c == '\n' || c == '\r' then skipWs s else c :: s
  | [] => []

/-- Decimal digit test. -/
def isDigitCh (c : Char) : Bool := '0' ≤ c && c ≤ '9'

/-- Longest digit run at the head of the string, and the rest. -/
def takeDigits : PyStr → (PyStr × PyStr)
  | c :: s =>
    if isDigitCh c then
      let p := takeDigits s
      (c :: p.1, p.2)
    else ([], c :: s)
  | [] => ([], [])

/-- Numeric value of a digit run. -/
def digitsVal (ds : PyStr) : Nat :=
  ds.foldl (fun a c => a * 10 + (c.toNat - 48)) 0

/-- Parse a JSON integer literal (the modelled subset has no floats, so a
fractional or exponent continuation is rejected). -/
def parseNum (s : PyStr) : Option (Json × PyStr) :=
  let p := match s with
           | '-' :: r => (true, r)
           | _ => (false, s)
  match takeDigits p.2 with
  | ([], _) => none
  | (ds, rest) =>
    if ds.length > 1 && ds.head? == some '0' then none
    else
      match rest with
      | c :: _ =>
        if c == '.' || c == 'e' || c == 'E' then none
        else some (Json.num (if p.1 then -(digitsVal ds : Int) else (digitsVal ds : Int)), rest)
      | [] => some (Json.num (if p.1 then -(digitsVal ds : Int) else (digitsVal ds : Int)), [])

/-- Parse the remainder of a JSON string literal after the opening quote,
with the common escapes of the modelled subset. -/
def parseStrChars : PyStr → Option (PyStr × PyStr)
  | '"' :: rest => some ([], rest)
  | '\\' :: c :: rest =>
    (match c with
     | '"' => some '"'
     | '\\' => some '\\'
     | '/' => some '/'
     | 'n' => some '\n'
     | 't' => some '\t'
     | 'r' => some '\r'
     | _ => none).bind
      (fun ch => (parseStrChars rest).map (fun (p : PyStr × PyStr) => (ch :: p.1, p.2)))
  | c :: rest =>
    if c == '\\' then none
    else (parseStrChars rest).map (fun (p : PyStr × PyStr) => (c :: p.1, p.2))
  | [] => none

/-- Fuel-driven recursive-descent parser for the JSON subset used by the
pipeline (null, booleans, integers, strings, arrays, objects).  After a
comma the remaining items of an array (or members of an object) are parsed
as a whole by re-entering on an opening bracket. -/
def parseV : Nat → PyStr → Option (Json × PyStr)
  | 0, _ => none
  | f + 1, s =>
    match skipWs s with
    | 'n' :: 'u' :: 'l' :: 'l' :: r => some (Json.null, r)
    | 't' :: 'r' :: 'u' :: 'e' :: r => some (Json.bool true, r)
    | 'f' :: 'a' :: 'l' :: 's' :: 'e' :: r => some (Json.bool false, r)
    | '"' :: r => (parseStrChars r).map (fun p => (Json.str (String.mk p.1), p.2))
    | '[' :: r =>
      (match skipWs r with
       | ']' :: r2 => some (Json.arr [], r2)
       | r1 =>
         match parseV f r1 with
         | none => none
         | some (v, r2) =>
           match skipWs r2 with
           | ',' :: r3 =>
             (match parseV f ('[' :: r3) with
              | some (Json.arr vs, r4) => some (Json.arr (v :: vs), r4)
              | _ => none)
           | ']' :: r3 => some (Json.arr [v], r3)
           | _ => none)
    | '\x7b' :: r =>
      (match skipWs r with
       | '\x7d' :: r2 => some (Json.obj [], r2)
       | '"' :: r1 =>
         (match parseStrChars r1 with
          | none => none
          | some (k, r2) =>
            match skipWs r2 with
            | ':' :: r3 =>
              (match parseV f r3 with
               | none => none
               | some (v, r4) =>
                 match skipWs r4 with
                 | ',' :: r5 =>
                   (match parseV f ('\x7b' :: r5) with
                    | some (Json.obj ms, r6) => some (Json.obj ((String.mk k, v) :: ms), r6)
                    | _ => none)
                 | '\x7d' :: r5 => some (Json.obj [(String.mk k, v)], r5)
                 | _ => none)
            | _ => none)
       | _ => none)
    | r => parseNum r

/-- Model of json.loads: parse one value, allow surrounding whitespace,
fail with JSONDecodeError otherwise. -/
def jsonLoads (s : PyStr) : Except PyErr Json :=
  match parseV (s.length + 1) s with
  | some (j, rest) =>
    if (skipWs rest).isEmpty then Except.ok j else Except.error PyErr.jsonDecodeError
  | none => Except.error PyErr.jsonDecodeError

/-- A script element: its type attribute (if any) and its text. -/
structure ScriptTag where
  stype : Option String
  text : PyStr
deriving DecidableEq

/-- An anchor element: its class tokens and its href attribute (if any). -/
structure AnchorTag where
  classes : List String
  href : Option PyStr
deriving DecidableEq

/-- The pieces of a parsed page used by the code: script and anchor tags in
document order. -/
structure Page where
  scripts : List ScriptTag
  anchors : List AnchorTag
deriving DecidableEq

/-- The site base URL (URL_BASE). -/
def URL_BASE : PyStr := "https://www.autotrader.ca".data

/-- find_all of script tags whose type attribute is application/ld+json. -/
def ldScripts (p : Page) : List ScriptTag :=
  p.scripts.filter (fun s => s.stype == some "application/ld+json")

/-- find_all of anchors whose class attribute contains detail-price-area or
inner-link. -/
def targetAnchors (p : Page) : List AnchorTag :=
  p.anchors.filter
    (fun t => t.classes.any (fun c => c == "detail-price-area" || c == "inner-link"))

/-- Python substring containment test (the in operator on strings). -/
def pyContains (pat : PyStr) : PyStr → Bool
  | [] => pat.isEmpty
  | s@(_ :: rest) => pat.isPrefixOf s || pyContains pat rest

/-- The candidate scripts of the secondary extractor: text/javascript
scripts whose text contains the marker token ngVdpModel. -/
def vdpCandidates (p : Page) : List ScriptTag :=
  (p.scripts.filter (fun s => s.stype == some "text/javascript")).filter
    (fun s => pyContains "ngVdpModel".data s.text)

/-- The literal part of the secondary regex up to and including the opening
brace of the captured group. -/
def ngMarker : PyStr := "window[\x27ngVdpModel\x27] = \x7b".data

/-- Scan for the earliest closing brace-semicolon of the non-greedy group;
a dot in the pattern never matches a newline, so a newline before the
terminator fails this starting position. -/
def ngClose : PyStr → Option PyStr
  | '\x7d' :: ';' :: _ => some []
  | '\n' :: _ => none
  | c :: rest => (ngClose rest).map (fun inner => c :: inner)
  | [] => none

/-- Model of re.search for the fixed secondary pattern: leftmost starting
position, shortest group; returns the brace-delimited group text. -/
def ngSearch : PyStr → Option PyStr
  | [] => none
  | s@(_ :: rest) =>
    if ngMarker.isPrefixOf s then
      match ngClose (s.drop ngMarker.length) with
      | some inner => some ('\x7b' :: (inner ++ ['\x7d']))
      | none => ngSearch rest
    else ngSearch rest

/-- Python str(x) on an optional attribute value: str(None) is "None". -/
def pyStrOfOpt (o : Option PyStr) : PyStr :=
  match o with
  | none => "None".data
  | some s => s

/-- get_car_page_urls: map every target anchor to URL_BASE + str(href) and
deduplicate (list(set(...)); the set order is unspecified, so the model
fixes one deduplicated order; membership and cardinality are faithful). -/
def get_car_page_urls (p : Page) : List PyStr :=
  ((targetAnchors p).map (fun t => URL_BASE ++ pyStrOfOpt t.href)).dedup

/-- Decimal digit character. -/
def digitChar : Nat → Char
  | 0 => '0'
  | 1 => '1'
  | 2 => '2'
  | 3 => '3'
  | 4 => '4'
  | 5 => '5'
  | 6 => '6'
  | 7 => '7'
  | 8 => '8'
  | _ => '9'

/-- Fuel-driven decimal rendering of a natural number. -/
def natStrAux : Nat → Nat → PyStr
  | 0, _ => []
  | f + 1, n =>
    if n < 10 then [digitChar n]
    else natStrAux f (n / 10) ++ [digitChar (n % 10)]

/-- Python str of a nonnegative int. -/
def natStr (n : Nat) : PyStr := natStrAux (n + 1) n

/-- Python str of an int. -/
def intStr (i : Int) : PyStr :=
  if i < 0 then '-' :: natStr i.natAbs else natStr i.natAbs

/-- Python str.replace with a single-character needle. -/
def replaceCh (old : Char) (rep : PyStr) : PyStr → PyStr
  | [] => []
  | c :: s =>
    if c == old then rep ++ replaceCh old rep s else c :: replaceCh old rep s

/-- The space percent-encoding step .replace(" ", "%20") of the query. -/
def encSp (s : PyStr) : PyStr := replaceCh ' ' "%20".data s

/-- Python sep.join(parts). -/
def pyJoin (sep : PyStr) : List PyStr → PyStr
  | [] => []
  | [s] => s
  | s :: t :: rest => s ++ sep ++ pyJoin sep (t :: rest)

/-- The URL built by search_autotrader: base + /cars/? + the ampersand
join of the five parameters, with spaces of the join replaced by %20. -/
def search_url (make model postal_code : PyStr) (radius_km display_results : Int) : PyStr :=
  URL_BASE ++ "/cars/?".data ++
    encSp (pyJoin "&".data
      ["loc=".data ++ postal_code,
       "make=".data ++ make,
       "mdl=".data ++ model,
       "prx=".data ++ intStr radius_km,
       "rcp=".data ++ intStr display_results])

/-- Number of positions of s at which pat occurs as a prefix of the
remaining suffix. -/
def countOcc (pat : PyStr) : PyStr → Nat
  | [] => 0
  | c :: s => (if pat <+: (c :: s) then 1 else 0) + countOcc pat s

/-- Field mapping of the primary extractor applied to the parsed JSON
payload.  The two leading subscripts model the logging f-string, which
evaluates json_data subscripts of name and url before the record is built;
the make field is the bare double subscript of brand then name; every other
field is a .get chain with defaults, in the dict-literal order of the
source. -/
def primary_from_json (j : Json) : Except PyErr Record :=
  pyBind (pyIndex j "name") (fun _ =>
  pyBind (pyIndex j "url") (fun _ =>
  pyBind (pyGet j "url" Json.null) (fun url =>
  pyBind (pyGet j "name" Json.null) (fun name =>
  pyBind (pyIndex j "brand") (fun brand =>
  pyBind (pyIndex brand "name") (fun make =>
  pyBind (pyGet j "model" Json.null) (fun model =>
  pyBind (pyGet j "vehicleModelDate" Json.null) (fun year =>
  pyBind (pyGet j "color" Json.null) (fun color =>
  pyBind (pyGet j "mileageFromOdometer" (Json.obj [])) (fun mo1 =>
  pyBind (pyGet mo1 "value" Json.null) (fun mileage =>
  pyBind (pyGet j "mileageFromOdometer" (Json.obj [])) (fun mo2 =>
  pyBind (pyGet mo2 "unitCode" Json.null) (fun mileage_unit =>
  pyBind (pyGet j "offers" (Json.obj [])) (fun of1 =>
  pyBind (pyGet of1 "price" Json.null) (fun price =>
  pyBind (pyGet j "offers" (Json.obj [])) (fun of2 =>
  pyBind (pyGet of2 "priceCurrency" Json.null) (fun price_currency =>
  pyBind (pyGet j "offers" (Json.obj [])) (fun of3 =>
  pyBind (pyGet of3 "availability" Json.null) (fun availability =>
  pyBind (pyGet j "vehicleEngine" (Json.obj [])) (fun ve1 =>
  pyBind (pyGet ve1 "engineType" Json.null) (fun engine_type =>
  pyBind (pyGet j "vehicleEngine" (Json.obj [])) (fun ve2 =>
  pyBind (pyGet ve2 "fuelType" Json.null) (fun fuel_type =>
  pyBind (pyGet j "vehicleTransmission" Json.null) (fun transmission =>
  pyBind (pyGet j "vehicleConfiguration" Json.null) (fun vehicle_configuration =>
  Except.ok
    [("url", url), ("name", name), ("make", make), ("model", model),
     ("year", year), ("color", color), ("mileage", mileage),
     ("mileage_unit", mileage_unit), ("price", price),
     ("price_currency", price_currency), ("availability", availability),
     ("engine_type", engine_type), ("fuel_type", fuel_type),
     ("transmission", transmission),
     ("vehicle_configuration", vehicle_configuration)])))))))))))))))))))))))))

/-- extract_car_data: subscript [1] of the ld+json scripts (IndexError when
fewer than two exist), json.loads of its text, then the field mapping. -/
def extract_car_data (p : Page) : Except PyErr Record :=
  match (ldScripts p)[1]? with
  | none => Except.error PyErr.indexError
  | some s => pyBind (jsonLoads s.text) primary_from_json

/-- Field mapping of the secondary extractor applied to the parsed JSON
payload, in the dict-literal order of the source; the description field is
a bare subscript of description followed by a .get. -/
def extra_from_json (j : Json) : Except PyErr Record :=
  pyBind (pyGet j "highlights" (Json.obj [])) (fun hi =>
  pyBind (pyGet hi "items" (Json.arr [])) (fun highlight_items =>
  pyBind (pyGet j "featureHighlights" (Json.arr [])) (fun feature_highlights =>
  pyBind (pyGet j "featureHighlights" (Json.arr [])) (fun feature_options =>
  pyBind (pyGet j "hero" (Json.obj [])) (fun h1 =>
  pyBind (pyGet h1 "trim" Json.null) (fun trim =>
  pyBind (pyGet j "hero" (Json.obj [])) (fun h2 =>
  pyBind (pyGet h2 "location" Json.null) (fun location =>
  pyBind (pyGet j "hero" (Json.obj [])) (fun h3 =>
  pyBind (pyGet h3 "vehicleAge" Json.null) (fun vehicle_age =>
  pyBind (pyGet j "hero" (Json.obj [])) (fun h4 =>
  pyBind (pyGet h4 "stockNumber" Json.null) (fun stock_number =>
  pyBind (pyGet j "ngIcoModel" (Json.obj [])) (fun ng =>
  pyBind (pyGet ng "dealerName" Json.null) (fun dealer_name =>
  pyBind (pyGet j "conditionAnalysis" (Json.obj [])) (fun ca =>
  pyBind (pyGet ca "odometerCondition" Json.null) (fun mileage_analysis =>
  pyBind (pyGet j "fuelEconomy" (Json.obj [])) (fun fe1 =>
  pyBind (pyGet fe1 "fuelCity" Json.null) (fun fuel_economy_city =>
  pyBind (pyGet j "fuelEconomy" (Json.obj [])) (fun fe2 =>
  pyBind (pyGet fe2 "fuelHighway" Json.null) (fun fuel_economy_highway =>
  pyBind (pyGet j "fuelEconomy" (Json.obj [])) (fun fe3 =>
  pyBind (pyGet fe3 "fuelCombined" Json.null) (fun fuel_economy_combined =>
  pyBind (pyGet j "fuelEconomy" (Json.obj [])) (fun fe4 =>
  pyBind (pyGet fe4 "fuelCost" Json.null) (fun fuel_cost =>
  pyBind (pyGet j "specifications" Json.null) (fun specs =>
  pyBind (pyIndex j "description") (fun de =>
  pyBind (pyGet de "description" Json.null) (fun description =>
  pyBind (pyGet j "priceAnalysis" (Json.obj [])) (fun pa1 =>
  pyBind (pyGet pa1 "priceAnalysisDescription" Json.null) (fun price_analysis =>
  pyBind (pyGet j "priceAnalysis" (Json.obj [])) (fun pa2 =>
  pyBind (pyGet pa2 "priceAnalysisMarketPrice" Json.null) (fun pamp =>
  pyBind (pyGet j "priceAnalysis" (Json.obj [])) (fun pa3 =>
  pyBind (pyGet pa3 "priceEvaluation" Json.null) (fun pae =>
  Except.ok
    [("highlight_items", highlight_items),
     ("feature_highlights", feature_highlights),
     ("feature_options", feature_options), ("trim", trim),
     ("location", location), ("vehicle_age", vehicle_age),
     ("stock_number", stock_number), ("dealer_name", dealer_name),
     ("mileage_analysis", mileage_analysis),
     ("fuel_economy_city", fuel_economy_city),
     ("fuel_economy_highway", fuel_economy_highway),
     ("fuel_economy_combined", fuel_economy_combined),
     ("fuel_cost_cents_per_litre", fuel_cost), ("specs", specs),
     ("description", description), ("price_analysis", price_analysis),
     ("price_analysis_market_price", pamp),
     ("price_analysis_evaluation", pae)])))))))))))))))))))))))))))))))))

/-- json.loads of the regex group followed by the field mapping; a returned
record is wrapped in some. -/
def extra_wrap (g : PyStr) : Except PyErr (Option Record) :=
  pyBind (jsonLoads g) (fun j =>
  pyBind (extra_from_json j) (fun r =>
  Except.ok (some r)))

/-- The body of the secondary extractor once a candidate script is
selected: the regex search returns None on no match (the function then
returns None), otherwise the group is parsed and mapped. -/
def extract_extra_from_script (s : ScriptTag) : Except PyErr (Option Record) :=
  match ngSearch s.text with
  | none => Except.ok none
  | some g => extra_wrap g

/-- extract_extra_car_data: subscript [0] of the marker-bearing candidate
scripts (IndexError when none exists), then the per-script body. -/
def extract_extra_car_data (p : Page) : Except PyErr (Option Record) :=
  match vdpCandidates p with
  | [] => Except.error PyErr.indexError
  | s :: _ => extract_extra_from_script s

/-- Python str.lower, modelled on the ASCII range. -/
def pyLower (s : PyStr) : PyStr := s.map Char.toLower

/-- The per-pair output file name of the run loop. -/
def out_file (make model date : PyStr) : PyStr :=
  "data/".data ++ pyLower make ++ "_".data ++ pyLower model ++ "_".data ++
    date ++ ".csv".data

/-- The write step of the run loop: a file is produced only when the record
list for the pair is nonempty. -/
def write_step (records : List Record) (make model date : PyStr) :
    Option (PyStr × List Record) :=
  if records.length > 0 then some (out_file make model date, records) else none

/-- The merge step of the run loop: the truthiness test on the secondary
result skips the update for an absent (or empty, hence falsy) record. -/
def merge_records (base : Record) (extra : Option Record) : Record :=
  match extra with
  | none => base
  | some e => if e.isEmpty then base else dictUpdate base e

/-- Whether a fallible computation succeeded. -/
def isOkE (x : Except PyErr α) : Bool :=
  match x with
  | Except.ok _ => true
  | Except.error _ => false

/-- A page holding exactly one structured-data script. -/
def pageC1 : Page := ⟨[⟨some "application/ld+json", "null".data⟩], []⟩

/-- A page holding two structured-data scripts. -/
def pageC1w2 : Page :=
  ⟨[⟨some "application/ld+json", "0".data⟩,
    ⟨some "application/ld+json", "null".data⟩], []⟩

/-- A primary payload holding only the keys the logging line needs. -/
def mC2 : List (String × Json) := [("name", Json.str "n"), ("url", Json.str "u")]

/-- A primary payload satisfying all required-key hypotheses. -/
def mC2w : List (String × Json) :=
  [("name", Json.str "n"), ("url", Json.str "u"),
   ("brand", Json.obj [("name", Json.str "Honda")])]

/-- A secondary payload holding only the required description object. -/
def mC2w2 : List (String × Json) := [("description", Json.obj [])]

/-- A page with a generic script that lacks the marker token. -/
def pageC3 : Page := ⟨[⟨some "text/javascript", "var x = 1;".data⟩], []⟩

/-- A page whose single target anchor lacks an href. -/
def pageC4 : Page := ⟨[], [⟨["inner-link"], none⟩]⟩

/-- A page with one href-less target anchor and one non-target anchor. -/
def pageC4w : Page :=
  ⟨[], [⟨["detail-price-area"], none⟩, ⟨["other"], some "/a".data⟩]⟩

/-- A page whose marker-bearing script assigns a non-JSON object text. -/
def pageC5 : Page :=
  ⟨[⟨some "text/javascript", "window[\x27ngVdpModel\x27] = \x7bx\x7d;".data⟩], []⟩

/-- A page whose marker-bearing script has no full assignment pattern. -/
def pageC5w : Page := ⟨[⟨some "text/javascript", "ngVdpModel".data⟩], []⟩

/-- The base record of the record-merger example. -/
def baseC6 : Record := [("make", Json.str "Honda"), ("trim", Json.null)]

/-- The supplementary record of the record-merger example. -/
def suppC6 : Record := [("trim", Json.str "EX-L"), ("location", Json.str "Halifax")]

/-- A results page with three target anchors over two distinct hrefs and
one non-target anchor. -/
def pageC8w : Page :=
  ⟨[], [⟨["inner-link"], some "/x".data⟩, ⟨["inner-link"], some "/x".data⟩,
        ⟨["detail-price-area"], some "/y".data⟩, ⟨["nope"], some "/z".data⟩]⟩

/-- A one-field record for the write-step witness. -/
def recC9 : Record := [("url", Json.null)]

/-- A page whose marker-bearing script assigns a minimal valid payload. -/
def pageC10 : Page :=
  ⟨[⟨some "text/javascript",
     "window[\x27ngVdpModel\x27] = \x7b\x22description\x22:\x7b\x7d\x7d;".data⟩], []⟩

/-- The record the secondary extractor produces for pageC10. -/
def recC10 : Record :=
  [("highlight_items", Json.arr []), ("feature_highlights", Json.arr []),
   ("feature_options", Json.arr []), ("trim", Json.null),
   ("location", Json.null), ("vehicle_age", Json.null),
   ("stock_number", Json.null), ("dealer_name", Json.null),
   ("mileage_analysis", Json.null), ("fuel_economy_city", Json.null),
   ("fuel_economy_highway", Json.null), ("fuel_economy_combined", Json.null),
   ("fuel_cost_cents_per_litre", Json.null), ("specs", Json.null),
   ("description", Json.null), ("price_analysis", Json.null),
   ("price_analysis_market_price", Json.null),
   ("price_analysis_evaluation", Json.null)]

/-- Claim C1 (amended): with fewer than two structured-data scripts the
primary extractor fails with the unnamed out-of-range IndexError (there is
no MissingStructuredDataError in the code); with at least two it parses
the second one (index 1). -/
theorem extract_car_data_index_behavior (p : Page) :
    ((ldScripts p).length < 2 → extract_car_data p = Except.error PyErr.indexError) ∧
    (∀ s, (ldScripts p)[1]? = some s →
      extract_car_data p = pyBind (jsonLoads s.text) primary_from_json) := by
  constructor
  · intro h
    have hn : (ldScripts p)[1]? = none := by
      rw [List.getElem?_eq_none_iff]
      omega
    unfold extract_car_data
    rw [hn]
  · intro s hs
    unfold extract_car_data
    rw [hs]

/-- Claim C1 counterexample: on a page carrying exactly one structured-data
script the extractor fails with the plain index error, not with the
explicit MissingStructuredDataError the claim demands. -/
theorem extract_car_data_single_block_index_error :
    (ldScripts pageC1).length = 1 ∧
    extract_car_data pageC1 = Except.error PyErr.indexError ∧
    extract_car_data pageC1 ≠ Except.error PyErr.missingStructuredData := by
  refine ⟨rfl, rfl, ?_⟩
  intro h
  have h2 : PyErr.indexError = PyErr.missingStructuredData := by
    have h3 : (Except.error PyErr.indexError : Except PyErr Record) =
        Except.error PyErr.missingStructuredData := h
    injection h3
  exact PyErr.noConfusion h2

/-- Claim C1 witness: the amended behavior at a page with no structured
data and at a page with two blocks. -/
theorem extract_car_data_index_behavior_witness :
    extract_car_data (Page.mk [] []) = Except.error PyErr.indexError ∧
    extract_car_data pageC1w2 = pyBind (jsonLoads "null".data) primary_from_json := by
  constructor
  · exact (extract_car_data_index_behavior ⟨[], []⟩).1 (by decide)
  · exact (extract_car_data_index_behavior pageC1w2).2
      ⟨some "application/ld+json", "null".data⟩ (by decide)

/-- Claim C3 (amended): when no generic script contains the marker token,
the secondary extractor indexes the empty candidate list and raises the
plain IndexError; emptiness is not checked before selecting the first
match. -/
theorem extract_extra_empty_candidates_index_error (p : Page)
    (h : vdpCandidates p = []) :
    extract_extra_car_data p = Except.error PyErr.indexError := by
  unfold extract_extra_car_data
  rw [h]

/-- Claim C3 counterexample: a page whose only generic script lacks the
marker makes the secondary extractor raise an index error instead of
returning the no-supplementary-data value. -/
theorem extract_extra_no_marker_raises :
    extract_extra_car_data pageC3 = Except.error PyErr.indexError ∧
    extract_extra_car_data pageC3 ≠ Except.ok (none : Option Record) := by
  refine ⟨rfl, ?_⟩
  intro h
  have h3 : (Except.error PyErr.indexError : Except PyErr (Option Record)) =
      Except.ok none := h
  exact Except.noConfusion h3

/-- Claim C3 witness: the amended behavior at a page with no scripts at
all. -/
theorem extract_extra_empty_candidates_witness :
    extract_extra_car_data (Page.mk [] []) = Except.error PyErr.indexError :=
  extract_extra_empty_candidates_index_error ⟨[], []⟩ rfl

/-- Claim C4 (amended): a target-class anchor lacking an href is not
skipped; it contributes the sentinel URL base + "None" to the output. -/
theorem get_car_page_urls_none_sentinel (p : Page) (t : AnchorTag)
    (ht : t ∈ targetAnchors p) (hh : t.href = none) :
    (URL_BASE ++ "None".data) ∈ get_car_page_urls p := by
  unfold get_car_page_urls
  rw [List.mem_dedup]
  refine List.mem_map.mpr ⟨t, ht, ?_⟩
  rw [hh]
  rfl

/-- Claim C4 counterexample: a page whose single target anchor has no href
produces exactly the sentinel entry base + "None". -/
theorem get_car_page_urls_emits_sentinel :
    get_car_page_urls pageC4 = [URL_BASE ++ "None".data] := by decide

/-- Claim C4 witness: the amended behavior at a page mixing an href-less
target anchor with a non-target anchor. -/
theorem get_car_page_urls_none_sentinel_witness :
    (URL_BASE ++ "None".data) ∈ get_car_page_urls pageC4w :=
  get_car_page_urls_none_sentinel pageC4w ⟨["detail-price-area"], none⟩ (by decide) rfl

/-- Claim C9: the write step is skipped exactly when the record list of the
pair is empty; otherwise one table is produced, named deterministically
from make, model and the run date. -/
theorem write_step_skip_or_one (records : List Record) (make model date : PyStr) :
    (records = [] → write_step records make model date = none) ∧
    (records ≠ [] → write_step records make model date =
      some (out_file make model date, records)) := by
  constructor
  · intro h
    subst h
    rfl
  · intro h
    unfold write_step
    rw [if_pos]
    exact List.length_pos.mpr h

/-- Claim C9 witness: the write step at an empty and at a singleton record
list. -/
theorem write_step_witness :
    write_step [] "Mazda".data "CX-5".data "2024-01-01".data = none ∧
    write_step [recC9] "Mazda".data "CX-5".data "2024-01-01".data =
      some (out_file "Mazda".data "CX-5".data "2024-01-01".data, [recC9]) := by
  constructor
  · exact (write_step_skip_or_one [] _ _ _).1 rfl
  · exact (write_step_skip_or_one [recC9] _ _ _).2 (by simp)

theorem dictGet_dictSet_self (d : Record) (k : String) (v : Json) :
    dictGet (dictSet d k v) k = some v := by
  induction d with
  | nil => simp [dictSet, dictGet]
  | cons kv rest ih =>
    obtain ⟨k', v'⟩ := kv
    cases hb : (k' == k) with
    | true => simp [dictSet, dictGet, hb]
    | false => simp [dictSet, dictGet, hb, ih]

theorem dictGet_dictSet_ne (d : Record) (k k' : String) (v : Json)
    (hne : k ≠ k') :
    dictGet (dictSet d k v) k' = dictGet d k' := by
  induction d with
  | nil => simp [dictSet, dictGet, hne]
  | cons kv rest ih =>
    obtain ⟨a, b⟩ := kv
    cases hb : (a == k) with
    | true =>
      have ha : a = k := by simpa using hb
      subst ha
      simp [dictSet, dictGet, hne]
    | false => simp [dictSet, dictGet, hb, ih]

theorem dictUpdate_cons (d : Record) (kv : String × Json) (rest : Record) :
    dictUpdate d (kv :: rest) = dictUpdate (dictSet d kv.1 kv.2) rest := rfl

theorem dictGet_eq_none_iff (d : Record) (k : String) :
    dictGet d k = none ↔ ∀ kv ∈ d, kv.1 ≠ k := by
  induction d with
  | nil => simp [dictGet]
  | cons kv rest ih =>
    obtain ⟨a, b⟩ := kv
    cases hb : (a == k) with
    | true =>
      have ha : a = k := by simpa using hb
      subst ha
      simp [dictGet]
    | false =>
      have ha : a ≠ k := by simpa using hb
      simp [dictGet, hb, ih, ha]

theorem dictGet_dictUpdate_none (other : Record) (d : Record) (k : String)
    (h : dictGet other k = none) :
    dictGet (dictUpdate d other) k = dictGet d k := by
  induction other generalizing d with
  | nil => rfl
  | cons kv rest ih =>
    obtain ⟨a, b⟩ := kv
    cases hb : (a == k) with
    | true => simp [dictGet, hb] at h
    | false =>
      have h2 : dictGet rest k = none := by simpa [dictGet, hb] using h
      have ha : a ≠ k := by simpa using hb
      rw [dictUpdate_cons, ih _ h2]
      exact dictGet_dictSet_ne d a k b ha

theorem dictGet_dictUpdate_some (other : Record) (d : Record) (k : String)
    (v : Json) (hnd : (other.map Prod.fst).Nodup) (h : dictGet other k = some v) :
    dictGet (dictUpdate d other) k = some v := by
  induction other generalizing d with
  | nil => simp [dictGet] at h
  | cons kv rest ih =>
    obtain ⟨a, b⟩ := kv
    rw [List.map_cons] at hnd
    have hnd2 := List.nodup_cons.mp hnd
    rw [dictUpdate_cons]
    cases hb : (a == k) with
    | true =>
      have ha : a = k := by simpa using hb
      have hv : b = v := by simpa [dictGet, hb] using h
      have hout : dictGet rest k = none := by
        rw [dictGet_eq_none_iff]
        intro kv2 hm he
        exact hnd2.1 (List.mem_map.mpr ⟨kv2, hm, he.trans ha.symm⟩)
      rw [dictGet_dictUpdate_none rest _ k hout, ha, dictGet_dictSet_self d k b, hv]
    | false =>
      have h2 : dictGet rest k = some v := by simpa [dictGet, hb] using h
      exact ih _ hnd2.2 h2

/-- Claim C6: merging applies the supplementary record on top of the base
record: keys of the supplementary record take its values (added when new,
overwriting on collision), all other keys keep the base value, and an
absent supplementary record leaves the base unchanged. -/
theorem merge_records_spec (base supp : Record)
    (hnd : (supp.map Prod.fst).Nodup) :
    (∀ k v, dictGet supp k = some v →
      dictGet (merge_records base (some supp)) k = some v) ∧
    (∀ k, dictGet supp k = none →
      dictGet (merge_records base (some supp)) k = dictGet base k) ∧
    merge_records base none = base := by
  refine ⟨?_, ?_, rfl⟩
  · intro k v h
    cases supp with
    | nil => simp [dictGet] at h
    | cons kv rest =>
      show dictGet (if ((kv :: rest : Record)).isEmpty then base
        else dictUpdate base (kv :: rest)) k = some v
      rw [if_neg (by simp)]
      exact dictGet_dictUpdate_some _ _ _ _ hnd h
  · intro k h
    cases supp with
    | nil => rfl
    | cons kv rest =>
      show dictGet (if ((kv :: rest : Record)).isEmpty then base
        else dictUpdate base (kv :: rest)) k = dictGet base k
      rw [if_neg (by simp)]
      exact dictGet_dictUpdate_none _ _ _ h

/-- Claim C6 witness: the record-merger example of the spec, including the
full merged record. -/
theorem merge_records_spec_witness :
    dictGet (merge_records baseC6 (some suppC6)) "trim" = some (Json.str "EX-L") ∧
    merge_records baseC6 (some suppC6) =
      [("make", Json.str "Honda"), ("trim", Json.str "EX-L"),
       ("location", Json.str "Halifax")] := by
  constructor
  · exact (merge_records_spec baseC6 suppC6 (by decide)).1 "trim" (Json.str "EX-L") rfl
  · rfl


theorem pyIndex_obj_some (m : Record) (k : String) (v : Json)
    (h : dictGet m k = some v) : pyIndex (Json.obj m) k = Except.ok v := by
  simp only [pyIndex]
  rw [h]

theorem pyGet_obj (m : Record) (k : String) (d : Json) :
    pyGet (Json.obj m) k d = Except.ok ((dictGet m k).getD d) := rfl

theorem pyBind_ok_of (x : Except PyErr α) (v : α) (f : α → Except PyErr β)
    (hx : x = Except.ok v) (h2 : ∃ r, f v = Except.ok r) :
    ∃ r, pyBind x f = Except.ok r := by
  rw [hx]
  exact h2

/-- Claim C2 counterexample: a payload whose object lacks the brand key
makes a primary field lookup raise KeyError, and a payload lacking the
description key makes a secondary field lookup raise KeyError, refuting
that no individual field lookup may throw. -/
theorem field_lookup_throws :
    primary_from_json (Json.obj mC2) = Except.error PyErr.keyError ∧
    extra_from_json (Json.obj []) = Except.error PyErr.keyError := ⟨rfl, rfl⟩

/-- Claim C2 (amended): every nested field lookup defaults to null when the
parent or leaf key is missing, except that the primary extractor requires
the name and url keys (log statement) and the brand key with a name key
beneath it (the make field is a bare double subscript), and the secondary
extractor requires the description key (a bare subscript); present parent
keys of chained lookups must hold objects.  Under those conditions no
lookup throws and extraction succeeds on any JSON object. -/
theorem null_safe_defaulting_except_required :
    (∀ m : List (String × Json),
      (∃ v, dictGet m "name" = some v) →
      (∃ v, dictGet m "url" = some v) →
      (∃ bm bv, dictGet m "brand" = some (Json.obj bm) ∧
        dictGet bm "name" = some bv) →
      (dictGet m "mileageFromOdometer" = none ∨
        ∃ o, dictGet m "mileageFromOdometer" = some (Json.obj o)) →
      (dictGet m "offers" = none ∨ ∃ o, dictGet m "offers" = some (Json.obj o)) →
      (dictGet m "vehicleEngine" = none ∨
        ∃ o, dictGet m "vehicleEngine" = some (Json.obj o)) →
      ∃ r, primary_from_json (Json.obj m) = Except.ok r) ∧
    (∀ m : List (String × Json),
      (∃ dm, dictGet m "description" = some (Json.obj dm)) →
      (dictGet m "highlights" = none ∨ ∃ o, dictGet m "highlights" = some (Json.obj o)) →
      (dictGet m "hero" = none ∨ ∃ o, dictGet m "hero" = some (Json.obj o)) →
      (dictGet m "ngIcoModel" = none ∨ ∃ o, dictGet m "ngIcoModel" = some (Json.obj o)) →
      (dictGet m "conditionAnalysis" = none ∨
        ∃ o, dictGet m "conditionAnalysis" = some (Json.obj o)) →
      (dictGet m "fuelEconomy" = none ∨ ∃ o, dictGet m "fuelEconomy" = some (Json.obj o)) →
      (dictGet m "priceAnalysis" = none ∨
        ∃ o, dictGet m "priceAnalysis" = some (Json.obj o)) →
      ∃ r, extra_from_json (Json.obj m) = Except.ok r) := by
  constructor
  · rintro m ⟨nv, hn⟩ ⟨uv, hu⟩ ⟨bm, bv, hb, hbn⟩ hmo hof hve
    obtain ⟨x1, e1⟩ : ∃ x, (dictGet m "mileageFromOdometer").getD (Json.obj []) = Json.obj x := by
      rcases hmo with h | ⟨o, h⟩ <;> rw [h] <;> exact ⟨_, rfl⟩
    obtain ⟨x2, e2⟩ : ∃ x, (dictGet m "offers").getD (Json.obj []) = Json.obj x := by
      rcases hof with h | ⟨o, h⟩ <;> rw [h] <;> exact ⟨_, rfl⟩
    obtain ⟨x3, e3⟩ : ∃ x, (dictGet m "vehicleEngine").getD (Json.obj []) = Json.obj x := by
      rcases hve with h | ⟨o, h⟩ <;> rw [h] <;> exact ⟨_, rfl⟩
    unfold primary_from_json
    refine pyBind_ok_of _ _ _ (pyIndex_obj_some _ _ _ hn) ?_
    refine pyBind_ok_of _ _ _ (pyIndex_obj_some _ _ _ hu) ?_
    refine pyBind_ok_of _ _ _ (pyGet_obj _ _ _) ?_
    refine pyBind_ok_of _ _ _ (pyGet_obj _ _ _) ?_
    refine pyBind_ok_of _ _ _ (pyIndex_obj_some _ _ _ hb) ?_
    refine pyBind_ok_of _ _ _ (pyIndex_obj_some _ _ _ hbn) ?_
    refine pyBind_ok_of _ _ _ (pyGet_obj _ _ _) ?_
    refine pyBind_ok_of _ _ _ (pyGet_obj _ _ _) ?_
    refine pyBind_ok_of _ _ _ (pyGet_obj _ _ _) ?_
    refine pyBind_ok_of _ _ _ (pyGet_obj _ _ _) ?_
    refine pyBind_ok_of _ ((dictGet x1 "value").getD Json.null) _
      (by rw [e1]; exact pyGet_obj _ _ _) ?_
    refine pyBind_ok_of _ _ _ (pyGet_obj _ _ _) ?_
    refine pyBind_ok_of _ ((dictGet x1 "unitCode").getD Json.null) _
      (by rw [e1]; exact pyGet_obj _ _ _) ?_
    refine pyBind_ok_of _ _ _ (pyGet_obj _ _ _) ?_
    refine pyBind_ok_of _ ((dictGet x2 "price").getD Json.null) _
      (by rw [e2]; exact pyGet_obj _ _ _) ?_
    refine pyBind_ok_of _ _ _ (pyGet_obj _ _ _) ?_
    refine pyBind_ok_of _ ((dictGet x2 "priceCurrency").getD Json.null) _
      (by rw [e2]; exact pyGet_obj _ _ _) ?_
    refine pyBind_ok_of _ _ _ (pyGet_obj _ _ _) ?_
    refine pyBind_ok_of _ ((dictGet x2 "availability").getD Json.null) _
      (by rw [e2]; exact pyGet_obj _ _ _) ?_
    refine pyBind_ok_of _ _ _ (pyGet_obj _ _ _) ?_
    refine pyBind_ok_of _ ((dictGet x3 "engineType").getD Json.null) _
      (by rw [e3]; exact pyGet_obj _ _ _) ?_
    refine pyBind_ok_of _ _ _ (pyGet_obj _ _ _) ?_
    refine pyBind_ok_of _ ((dictGet x3 "fuelType").getD Json.null) _
      (by rw [e3]; exact pyGet_obj _ _ _) ?_
    refine pyBind_ok_of _ _ _ (pyGet_obj _ _ _) ?_
    refine pyBind_ok_of _ _ _ (pyGet_obj _ _ _) ?_
    exact ⟨_, rfl⟩
  · rintro m ⟨dm, hde⟩ hhi hhe hng hca hfe hpa
    obtain ⟨x1, e1⟩ : ∃ x, (dictGet m "highlights").getD (Json.obj []) = Json.obj x := by
      rcases hhi with h | ⟨o, h⟩ <;> rw [h] <;> exact ⟨_, rfl⟩
    obtain ⟨x2, e2⟩ : ∃ x, (dictGet m "hero").getD (Json.obj []) = Json.obj x := by
      rcases hhe with h | ⟨o, h⟩ <;> rw [h] <;> exact ⟨_, rfl⟩
    obtain ⟨x3, e3⟩ : ∃ x, (dictGet m "ngIcoModel").getD (Json.obj []) = Json.obj x := by
      rcases hng with h | ⟨o, h⟩ <;> rw [h] <;> exact ⟨_, rfl⟩
    obtain ⟨x4, e4⟩ : ∃ x, (dictGet m "conditionAnalysis").getD (Json.obj []) = Json.obj x := by
      rcases hca with h | ⟨o, h⟩ <;> rw [h] <;> exact ⟨_, rfl⟩
    obtain ⟨x5, e5⟩ : ∃ x, (dictGet m "fuelEconomy").getD (Json.obj []) = Json.obj x := by
      rcases hfe with h | ⟨o, h⟩ <;> rw [h] <;> exact ⟨_, rfl⟩
    obtain ⟨x6, e6⟩ : ∃ x, (dictGet m "priceAnalysis").getD (Json.obj []) = Json.obj x := by
      rcases hpa with h | ⟨o, h⟩ <;> rw [h] <;> exact ⟨_, rfl⟩
    unfold extra_from_json
    refine pyBind_ok_of _ _ _ (pyGet_obj _ _ _) ?_
    refine pyBind_ok_of _ ((dictGet x1 "items").getD (Json.arr [])) _
      (by rw [e1]; exact pyGet_obj _ _ _) ?_
    refine pyBind_ok_of _ _ _ (pyGet_obj _ _ _) ?_
    refine pyBind_ok_of _ _ _ (pyGet_obj _ _ _) ?_
    refine pyBind_ok_of _ _ _ (pyGet_obj _ _ _) ?_
    refine pyBind_ok_of _ ((dictGet x2 "trim").getD Json.null) _
      (by rw [e2]; exact pyGet_obj _ _ _) ?_
    refine pyBind_ok_of _ _ _ (pyGet_obj _ _ _) ?_
    refine pyBind_ok_of _ ((dictGet x2 "location").getD Json.null) _
      (by rw [e2]; exact pyGet_obj _ _ _) ?_
    refine pyBind_ok_of _ _ _ (pyGet_obj _ _ _) ?_
    refine pyBind_ok_of _ ((dictGet x2 "vehicleAge").getD Json.null) _
      (by rw [e2]; exact pyGet_obj _ _ _) ?_
    refine pyBind_ok_of _ _ _ (pyGet_obj _ _ _) ?_
    refine pyBind_ok_of _ ((dictGet x2 "stockNumber").getD Json.null) _
      (by rw [e2]; exact pyGet_obj _ _ _) ?_
    refine pyBind_ok_of _ _ _ (pyGet_obj _ _ _) ?_
    refine pyBind_ok_of _ ((dictGet x3 "dealerName").getD Json.null) _
      (by rw [e3]; exact pyGet_obj _ _ _) ?_
    refine pyBind_ok_of _ _ _ (pyGet_obj _ _ _) ?_
    refine pyBind_ok_of _ ((dictGet x4 "odometerCondition").getD Json.null) _
      (by rw [e4]; exact pyGet_obj _ _ _) ?_
    refine pyBind_ok_of _ _ _ (pyGet_obj _ _ _) ?_
    refine pyBind_ok_of _ ((dictGet x5 "fuelCity").getD Json.null) _
      (by rw [e5]; exact pyGet_obj _ _ _) ?_
    refine pyBind_ok_of _ _ _ (pyGet_obj _ _ _) ?_
    refine pyBind_ok_of _ ((dictGet x5 "fuelHighway").getD Json.null) _
      (by rw [e5]; exact pyGet_obj _ _ _) ?_
    refine pyBind_ok_of _ _ _ (pyGet_obj _ _ _) ?_
    refine pyBind_ok_of _ ((dictGet x5 "fuelCombined").getD Json.null) _
      (by rw [e5]; exact pyGet_obj _ _ _) ?_
    refine pyBind_ok_of _ _ _ (pyGet_obj _ _ _) ?_
    refine pyBind_ok_of _ ((dictGet x5 "fuelCost").getD Json.null) _
      (by rw [e5]; exact pyGet_obj _ _ _) ?_
    refine pyBind_ok_of _ _ _ (pyGet_obj _ _ _) ?_
    refine pyBind_ok_of _ _ _ (pyIndex_obj_some _ _ _ hde) ?_
    refine pyBind_ok_of _ _ _ (pyGet_obj _ _ _) ?_
    refine pyBind_ok_of _ _ _ (pyGet_obj _ _ _) ?_
    refine pyBind_ok_of _ ((dictGet x6 "priceAnalysisDescription").getD Json.null) _
      (by rw [e6]; exact pyGet_obj _ _ _) ?_
    refine pyBind_ok_of _ _ _ (pyGet_obj _ _ _) ?_
    refine pyBind_ok_of _ ((dictGet x6 "priceAnalysisMarketPrice").getD Json.null) _
      (by rw [e6]; exact pyGet_obj _ _ _) ?_
    refine pyBind_ok_of _ _ _ (pyGet_obj _ _ _) ?_
    refine pyBind_ok_of _ ((dictGet x6 "priceEvaluation").getD Json.null) _
      (by rw [e6]; exact pyGet_obj _ _ _) ?_
    exact ⟨_, rfl⟩

set_option maxHeartbeats 1000000 in
/-- Claim C2 witness: both extractors succeed on minimal objects holding
only the required keys, all other fields defaulting. -/
theorem null_safe_defaulting_witness :
    isOkE (primary_from_json (Json.obj mC2w)) = true ∧
    isOkE (extra_from_json (Json.obj mC2w2)) = true := by
  constructor
  · obtain ⟨r, hr⟩ := null_safe_defaulting_except_required.1 mC2w
      ⟨Json.str "n", rfl⟩ ⟨Json.str "u", rfl⟩
      ⟨[("name", Json.str "Honda")], Json.str "Honda", rfl, rfl⟩
      (Or.inl rfl) (Or.inl rfl) (Or.inl rfl)
    rw [hr]
    rfl
  · obtain ⟨r, hr⟩ := null_safe_defaulting_except_required.2 mC2w2
      ⟨[], rfl⟩ (Or.inl rfl) (Or.inl rfl) (Or.inl rfl) (Or.inl rfl)
      (Or.inl rfl) (Or.inl rfl)
    rw [hr]
    rfl

set_option maxHeartbeats 1000000 in
/-- Claim C5 (amended): when the regex pattern does not match the selected
script, the secondary extractor returns the no-supplementary-data value
without error; but when the pattern matches and the isolated text is not
parseable JSON, the raised decode error propagates (a malformed payload
after a pattern match IS fatal). -/
theorem extra_pattern_no_match_returns_none (p : Page) (s : ScriptTag)
    (h : (vdpCandidates p).head? = some s) :
    (ngSearch s.text = none → extract_extra_car_data p = Except.ok none) ∧
    (∀ g e, ngSearch s.text = some g → jsonLoads g = Except.error e →
      extract_extra_car_data p = Except.error e) := by
  cases hc : vdpCandidates p with
  | nil =>
    rw [hc] at h
    exact absurd h (by simp)
  | cons s0 rest =>
    rw [hc] at h
    have hs : s0 = s := by simpa using h
    subst hs
    have hp : extract_extra_car_data p = extract_extra_from_script s0 := by
      unfold extract_extra_car_data
      rw [hc]
    constructor
    · intro hn
      rw [hp]
      unfold extract_extra_from_script
      rw [hn]
    · intro g e hg he
      rw [hp]
      have h2 : extract_extra_from_script s0 = extra_wrap g := by
        unfold extract_extra_from_script
        rw [hg]
      rw [h2]
      unfold extra_wrap
      rw [he]
      rfl

set_option maxHeartbeats 1000000 in
/-- Claim C5 counterexample: a marker-bearing script whose captured group
is not valid JSON makes the secondary extractor raise a JSON decode error
instead of returning the no-supplementary-data value. -/
theorem extra_malformed_payload_fatal :
    extract_extra_car_data pageC5 = Except.error PyErr.jsonDecodeError ∧
    extract_extra_car_data pageC5 ≠ Except.ok (none : Option Record) := by
  refine ⟨rfl, ?_⟩
  intro h
  have h3 : (Except.error PyErr.jsonDecodeError : Except PyErr (Option Record)) =
      Except.ok none := h
  exact Except.noConfusion h3

set_option maxHeartbeats 1000000 in
/-- Claim C5 witness: the amended behavior at a page whose script carries
the marker but not the assignment pattern. -/
theorem extra_pattern_no_match_witness :
    extract_extra_car_data pageC5w = Except.ok none :=
  (extra_pattern_no_match_returns_none pageC5w
    ⟨some "text/javascript", "ngVdpModel".data⟩ (by decide)).1 (by decide)

theorem pyBind_ok_inv (x : Except PyErr α) (f : α → Except PyErr β) (r : β)
    (h : pyBind x f = Except.ok r) : ∃ v, x = Except.ok v ∧ f v = Except.ok r := by
  cases x with
  | error e => exact Except.noConfusion h
  | ok v => exact ⟨v, rfl, h⟩

theorem extra_from_json_fields (j : Json) (r : Record)
    (hx : extra_from_json j = Except.ok r) :
    dictGet r "feature_options" = dictGet r "feature_highlights" := by
  unfold extra_from_json at hx
  obtain ⟨v1, -, hx⟩ := pyBind_ok_inv _ _ _ hx
  obtain ⟨v2, -, hx⟩ := pyBind_ok_inv _ _ _ hx
  obtain ⟨v3, h3, hx⟩ := pyBind_ok_inv _ _ _ hx
  obtain ⟨v4, h4, hx⟩ := pyBind_ok_inv _ _ _ hx
  obtain ⟨v5, -, hx⟩ := pyBind_ok_inv _ _ _ hx
  obtain ⟨v6, -, hx⟩ := pyBind_ok_inv _ _ _ hx
  obtain ⟨v7, -, hx⟩ := pyBind_ok_inv _ _ _ hx
  obtain ⟨v8, -, hx⟩ := pyBind_ok_inv _ _ _ hx
  obtain ⟨v9, -, hx⟩ := pyBind_ok_inv _ _ _ hx
  obtain ⟨v10, -, hx⟩ := pyBind_ok_inv _ _ _ hx
  obtain ⟨v11, -, hx⟩ := pyBind_ok_inv _ _ _ hx
  obtain ⟨v12, -, hx⟩ := pyBind_ok_inv _ _ _ hx
  obtain ⟨v13, -, hx⟩ := pyBind_ok_inv _ _ _ hx
  obtain ⟨v14, -, hx⟩ := pyBind_ok_inv _ _ _ hx
  obtain ⟨v15, -, hx⟩ := pyBind_ok_inv _ _ _ hx
  obtain ⟨v16, -, hx⟩ := pyBind_ok_inv _ _ _ hx
  obtain ⟨v17, -, hx⟩ := pyBind_ok_inv _ _ _ hx
  obtain ⟨v18, -, hx⟩ := pyBind_ok_inv _ _ _ hx
  obtain ⟨v19, -, hx⟩ := pyBind_ok_inv _ _ _ hx
  obtain ⟨v20, -, hx⟩ := pyBind_ok_inv _ _ _ hx
  obtain ⟨v21, -, hx⟩ := pyBind_ok_inv _ _ _ hx
  obtain ⟨v22, -, hx⟩ := pyBind_ok_inv _ _ _ hx
  obtain ⟨v23, -, hx⟩ := pyBind_ok_inv _ _ _ hx
  obtain ⟨v24, -, hx⟩ := pyBind_ok_inv _ _ _ hx
  obtain ⟨v25, -, hx⟩ := pyBind_ok_inv _ _ _ hx
  obtain ⟨v26, -, hx⟩ := pyBind_ok_inv _ _ _ hx
  obtain ⟨v27, -, hx⟩ := pyBind_ok_inv _ _ _ hx
  obtain ⟨v28, -, hx⟩ := pyBind_ok_inv _ _ _ hx
  obtain ⟨v29, -, hx⟩ := pyBind_ok_inv _ _ _ hx
  obtain ⟨v30, -, hx⟩ := pyBind_ok_inv _ _ _ hx
  obtain ⟨v31, -, hx⟩ := pyBind_ok_inv _ _ _ hx
  obtain ⟨v32, -, hx⟩ := pyBind_ok_inv _ _ _ hx
  obtain ⟨v33, -, hx⟩ := pyBind_ok_inv _ _ _ hx
  have hr := Except.ok.inj hx
  subst hr
  have hv : v3 = v4 := by
    rw [h3] at h4
    exact Except.ok.inj h4
  have e1 : dictGet
      [("highlight_items", v2), ("feature_highlights", v3),
       ("feature_options", v4), ("trim", v6), ("location", v8),
       ("vehicle_age", v10), ("stock_number", v12), ("dealer_name", v14),
       ("mileage_analysis", v16), ("fuel_economy_city", v18),
       ("fuel_economy_highway", v20), ("fuel_economy_combined", v22),
       ("fuel_cost_cents_per_litre", v24), ("specs", v25),
       ("description", v27), ("price_analysis", v29),
       ("price_analysis_market_price", v31),
       ("price_analysis_evaluation", v33)] "feature_options" = some v4 := rfl
  have e2 : dictGet
      [("highlight_items", v2), ("feature_highlights", v3),
       ("feature_options", v4), ("trim", v6), ("location", v8),
       ("vehicle_age", v10), ("stock_number", v12), ("dealer_name", v14),
       ("mileage_analysis", v16), ("fuel_economy_city", v18),
       ("fuel_economy_highway", v20), ("fuel_economy_combined", v22),
       ("fuel_cost_cents_per_litre", v24), ("specs", v25),
       ("description", v27), ("price_analysis", v29),
       ("price_analysis_market_price", v31),
       ("price_analysis_evaluation", v33)] "feature_highlights" = some v3 := rfl
  rw [e1, e2, hv]

/-- Claim C10: whenever the secondary extractor returns a record, its
feature_options value equals its feature_highlights value, both being read
from the same featureHighlights key of the payload. -/
theorem extra_record_options_eq_highlights (p : Page) (rec : Record)
    (h : extract_extra_car_data p = Except.ok (some rec)) :
    dictGet rec "feature_options" = dictGet rec "feature_highlights" := by
  cases hc : vdpCandidates p with
  | nil =>
    have h2 : extract_extra_car_data p = Except.error PyErr.indexError := by
      unfold extract_extra_car_data
      rw [hc]
    rw [h2] at h
    exact Except.noConfusion h
  | cons s rest =>
    have hp : extract_extra_car_data p = extract_extra_from_script s := by
      unfold extract_extra_car_data
      rw [hc]
    rw [hp] at h
    cases hg : ngSearch s.text with
    | none =>
      have h2 : extract_extra_from_script s = Except.ok none := by
        unfold extract_extra_from_script
        rw [hg]
      rw [h2] at h
      exact Option.noConfusion (Except.ok.inj h)
    | some g =>
      have h2 : extract_extra_from_script s = extra_wrap g := by
        unfold extract_extra_from_script
        rw [hg]
      rw [h2] at h
      unfold extra_wrap at h
      obtain ⟨jv, -, h⟩ := pyBind_ok_inv _ _ _ h
      obtain ⟨rv, hr, h⟩ := pyBind_ok_inv _ _ _ h
      have hrv : rv = rec := Option.some.inj (Except.ok.inj h)
      rw [← hrv]
      exact extra_from_json_fields jv rv hr

set_option maxHeartbeats 1000000 in
/-- Claim C10 witness: the invariant at a concrete page whose secondary
extraction succeeds. -/
theorem extra_record_options_eq_highlights_witness :
    dictGet recC10 "feature_options" = dictGet recC10 "feature_highlights" :=
  extra_record_options_eq_highlights pageC10 recC10 (by rfl)

theorem map_url_of_all_some (l : List AnchorTag)
    (h : ∀ t ∈ l, t.href ≠ none) :
    l.map (fun t => URL_BASE ++ pyStrOfOpt t.href) =
      (l.filterMap (fun t => t.href)).map (fun s => URL_BASE ++ s) := by
  induction l with
  | nil => rfl
  | cons a l ih =>
    have ha := h a (by simp)
    cases hh : a.href with
    | none => exact absurd hh ha
    | some s =>
      simp only [List.map_cons, List.filterMap_cons, hh]
      rw [ih (fun t ht => h t (by simp [ht]))]
      rfl

theorem append_left_inj (xs : PyStr) : Function.Injective (fun s => xs ++ s) := by
  intro a b h
  simpa using h

theorem dedup_map_inj (f : PyStr → PyStr) (hf : Function.Injective f)
    (l : List PyStr) : (l.map f).dedup = l.dedup.map f := by
  induction l with
  | nil => rfl
  | cons a l ih =>
    by_cases h : a ∈ l
    · rw [List.map_cons, List.dedup_cons_of_mem (List.mem_map_of_mem f h),
        List.dedup_cons_of_mem h, ih]
    · rw [List.map_cons, List.dedup_cons_of_not_mem, List.dedup_cons_of_not_mem h,
        List.map_cons, ih]
      exact fun hm => h ((List.mem_map_of_injective hf).mp hm)

/-- Claim C8: on a page whose target-class anchors all carry hrefs, the
discoverer output contains exactly as many entries as there are distinct
hrefs, without duplicates, and every entry starts with the site base. -/
theorem get_car_page_urls_unique (p : Page)
    (h : ∀ t ∈ targetAnchors p, t.href ≠ none) :
    (get_car_page_urls p).Nodup ∧
    (get_car_page_urls p).length =
      ((targetAnchors p).filterMap (fun t => t.href)).dedup.length ∧
    ∀ u ∈ get_car_page_urls p, URL_BASE <+: u := by
  refine ⟨List.nodup_dedup _, ?_, ?_⟩
  · unfold get_car_page_urls
    rw [map_url_of_all_some _ h, dedup_map_inj _ (append_left_inj URL_BASE),
      List.length_map]
  · intro u hu
    unfold get_car_page_urls at hu
    rw [List.mem_dedup] at hu
    obtain ⟨t, -, ht⟩ := List.mem_map.mp hu
    rw [← ht]
    exact List.prefix_append _ _

/-- Claim C8 witness: a page with three target anchors over two distinct
hrefs (plus one ignored anchor) yields exactly two unique entries. -/
theorem get_car_page_urls_unique_witness :
    (get_car_page_urls pageC8w).Nodup ∧
    (get_car_page_urls pageC8w).length =
      ((targetAnchors pageC8w).filterMap (fun t => t.href)).dedup.length ∧
    (get_car_page_urls pageC8w).length = 2 := by
  have h := get_car_page_urls_unique pageC8w (by decide)
  exact ⟨h.1, h.2.1, by decide⟩

theorem countOcc_zero (pat s : PyStr) (e : Char) (he : e ∈ pat) (hs : e ∉ s) :
    countOcc pat s = 0 := by
  induction s with
  | nil => rfl
  | cons c s ih =>
    have h1 : ¬ pat <+: (c :: s) := fun hp => hs (hp.subset he)
    have h2 : countOcc pat (c :: s) =
        (if pat <+: (c :: s) then 1 else 0) + countOcc pat s := rfl
    rw [h2, if_neg h1, ih (fun hm => hs (List.mem_cons_of_mem c hm))]

theorem countOcc_skip (pat s t : PyStr) (b e : Char)
    (he : e ∈ pat) (hs : e ∉ s) (hb : b ∉ pat) :
    countOcc pat (s ++ b :: t) = countOcc pat (b :: t) := by
  induction s with
  | nil => rfl
  | cons a s ih =>
    have h1 : ¬ pat <+: (a :: s) ++ b :: t := by
      intro hp
      obtain ⟨u, hu⟩ := hp
      rcases List.append_eq_append_iff.mp hu with ⟨w, hw1, -⟩ | ⟨w, hw1, hw2⟩
      · exact hs (List.IsPrefix.subset ⟨w, hw1.symm⟩ he)
      · cases w with
        | nil =>
          rw [List.append_nil] at hw1
          exact hs (hw1 ▸ he)
        | cons x w2 =>
          apply hb
          have h3 : b = x := by injection hw2
          rw [hw1, h3]
          exact List.mem_append_right _ (List.mem_cons_self x w2)
    have h2 : countOcc pat ((a :: s) ++ b :: t) =
        (if pat <+: (a :: s) ++ b :: t then 1 else 0) + countOcc pat (s ++ b :: t) := rfl
    rw [h2, if_neg h1, ih (fun hm => hs (List.mem_cons_of_mem a hm))]
    omega

theorem countOcc_strip (pat s t : PyStr)
    (h : ∀ i, i < s.length → ¬ pat <+: List.drop i s ∧ ¬ List.drop i s <+: pat) :
    countOcc pat (s ++ t) = countOcc pat t := by
  induction s with
  | nil => rfl
  | cons a s ih =>
    have h0 := h 0 (by simp)
    have h1 : ¬ pat <+: (a :: s) ++ t := by
      intro hp
      obtain ⟨u, hu⟩ := hp
      rcases List.append_eq_append_iff.mp hu with ⟨w, hw1, -⟩ | ⟨w, hw1, -⟩
      · exact h0.1 ⟨w, hw1.symm⟩
      · exact h0.2 ⟨w, hw1.symm⟩
    have h2 : countOcc pat ((a :: s) ++ t) =
        (if pat <+: (a :: s) ++ t then 1 else 0) + countOcc pat (s ++ t) := rfl
    rw [h2, if_neg h1, ih (fun i hi => h (i + 1) (Nat.succ_lt_succ hi))]
    omega

theorem countOcc_head (pat t : PyStr) (hp : pat ≠ [])
    (h : ∀ i, i < pat.length → 0 < i →
      ¬ pat <+: List.drop i pat ∧ ¬ List.drop i pat <+: pat) :
    countOcc pat (pat ++ t) = 1 + countOcc pat t := by
  cases pat with
  | nil => exact absurd rfl hp
  | cons a p =>
    have h2 : countOcc (a :: p) ((a :: p) ++ t) =
        (if (a :: p) <+: (a :: p) ++ t then 1 else 0) + countOcc (a :: p) (p ++ t) := rfl
    rw [h2, if_pos (List.prefix_append _ _),
      countOcc_strip (a :: p) p t
        (fun i hi => h (i + 1) (Nat.succ_lt_succ hi) (Nat.succ_pos i))]

theorem countOcc_cons_ne (c : Char) (p : PyStr) (b : Char) (t : PyStr)
    (h : c ≠ b) : countOcc (c :: p) (b :: t) = countOcc (c :: p) t := by
  have h1 : ¬ (c :: p) <+: (b :: t) := by
    intro hp
    obtain ⟨u, hu⟩ := hp
    have h3 : c = b := by injection hu
    exact h h3
  have h2 : countOcc (c :: p) (b :: t) =
      (if (c :: p) <+: b :: t then 1 else 0) + countOcc (c :: p) t := rfl
  rw [h2, if_neg h1]
  omega

theorem replaceCh_append (old : Char) (rep s t : PyStr) :
    replaceCh old rep (s ++ t) = replaceCh old rep s ++ replaceCh old rep t := by
  induction s with
  | nil => rfl
  | cons a s ih =>
    by_cases ha : a = old
    · simp [replaceCh, ha, ih, List.append_assoc]
    · simp [replaceCh, ha, ih]

theorem mem_replaceCh (old : Char) (rep s : PyStr) (c : Char)
    (hc : c ∈ replaceCh old rep s) : c ∈ rep ∨ (c ∈ s ∧ c ≠ old) := by
  induction s with
  | nil => exact absurd hc (by simp [replaceCh])
  | cons a s ih =>
    simp only [replaceCh] at hc
    by_cases ha : a = old
    · rw [if_pos (by simp [ha])] at hc
      rcases List.mem_append.mp hc with h | h
      · exact Or.inl h
      · rcases ih h with h2 | ⟨h3, h4⟩
        · exact Or.inl h2
        · exact Or.inr ⟨List.mem_cons_of_mem a h3, h4⟩
    · rw [if_neg (by simp [ha])] at hc
      rcases List.mem_cons.mp hc with h | h
      · subst h
        exact Or.inr ⟨List.mem_cons_self _ _, ha⟩
      · rcases ih h with h2 | ⟨h3, h4⟩
        · exact Or.inl h2
        · exact Or.inr ⟨List.mem_cons_of_mem a h3, h4⟩

theorem not_mem_replaceCh (old : Char) (rep s : PyStr) (c : Char)
    (h1 : c ∉ rep) (h2 : c ∉ s) : c ∉ replaceCh old rep s := by
  intro hc
  rcases mem_replaceCh old rep s c hc with h | ⟨h, -⟩
  · exact h1 h
  · exact h2 h

theorem not_mem_replaceCh_self (old : Char) (rep s : PyStr) (h : old ∉ rep) :
    old ∉ replaceCh old rep s := by
  intro hc
  rcases mem_replaceCh old rep s old hc with h2 | ⟨-, h3⟩
  · exact h h2
  · exact h3 rfl

theorem not_mem_encSp_eq (s : PyStr) (h : '=' ∉ s) : '=' ∉ encSp s :=
  not_mem_replaceCh ' ' "%20".data s '=' (by decide) h

theorem not_mem_encSp_space (s : PyStr) : ' ' ∉ encSp s :=
  not_mem_replaceCh_self ' ' "%20".data s (by decide)

theorem digitChar_mem (n : Nat) : digitChar n ∈ "0123456789".data := by
  unfold digitChar
  split <;> decide

theorem natStrAux_digits (f n : Nat) :
    ∀ c ∈ natStrAux f n, c ∈ "0123456789".data := by
  induction f generalizing n with
  | zero =>
    intro c hc
    exact absurd hc (by simp [natStrAux])
  | succ f ih =>
    intro c hc
    simp only [natStrAux] at hc
    split at hc
    · rw [List.mem_singleton] at hc
      rw [hc]
      exact digitChar_mem n
    · rcases List.mem_append.mp hc with h | h
      · exact ih _ c h
      · have h2 : c = digitChar (n % 10) := by simpa using h
        rw [h2]
        exact digitChar_mem _

theorem intStr_no_eq (i : Int) : '=' ∉ intStr i := by
  intro h
  unfold intStr at h
  split at h
  · rcases List.mem_cons.mp h with h2 | h2
    · exact absurd h2 (by decide)
    · exact absurd (natStrAux_digits _ _ '=' h2) (by decide)
  · exact absurd (natStrAux_digits _ _ '=' h) (by decide)

theorem search_url_form (make model postal : PyStr) (r d : Int) :
    search_url make model postal r d =
      "https://www.autotrader.ca/cars/?loc=".data ++
        (encSp postal ++ ("&make=".data ++ (encSp make ++ ("&mdl=".data ++
          (encSp model ++ ("&prx=".data ++ (encSp (intStr r) ++
            ("&rcp=".data ++ encSp (intStr d))))))))) := by
  simp only [search_url, URL_BASE, pyJoin, encSp, replaceCh_append, List.append_assoc]
  rfl

theorem countOcc_url_loc (P M D R C : PyStr) (hP : '=' ∉ P) (hM : '=' ∉ M)
    (hD : '=' ∉ D) (hR : '=' ∉ R) (hC : '=' ∉ C) :
    countOcc "loc=".data
      ("https://www.autotrader.ca/cars/?loc=".data ++ (P ++ ("&make=".data ++
        (M ++ ("&mdl=".data ++ (D ++ ("&prx=".data ++ (R ++
          ("&rcp=".data ++ C))))))))) = 1 := by
  have s1 : countOcc "loc=".data
      ("https://www.autotrader.ca/cars/?loc=".data ++ (P ++ ("&make=".data ++
        (M ++ ("&mdl=".data ++ (D ++ ("&prx=".data ++ (R ++
          ("&rcp=".data ++ C))))))))) =
      countOcc "loc=".data ("loc=".data ++ (P ++ ("&make=".data ++ (M ++
        ("&mdl=".data ++ (D ++ ("&prx=".data ++ (R ++ ("&rcp=".data ++ C))))))))) :=
    countOcc_strip _ "https://www.autotrader.ca/cars/?".data _ (by decide)
  have s2 : countOcc "loc=".data ("loc=".data ++ (P ++ ("&make=".data ++ (M ++
        ("&mdl=".data ++ (D ++ ("&prx=".data ++ (R ++ ("&rcp=".data ++ C))))))))) =
      1 + countOcc "loc=".data (P ++ ("&make=".data ++ (M ++ ("&mdl=".data ++
        (D ++ ("&prx=".data ++ (R ++ ("&rcp=".data ++ C)))))))) :=
    countOcc_head _ _ (by decide) (by decide)
  have s3 : countOcc "loc=".data (P ++ ("&make=".data ++ (M ++ ("&mdl=".data ++
        (D ++ ("&prx=".data ++ (R ++ ("&rcp=".data ++ C)))))))) =
      countOcc "loc=".data ("&make=".data ++ (M ++ ("&mdl=".data ++
        (D ++ ("&prx=".data ++ (R ++ ("&rcp=".data ++ C))))))) :=
    countOcc_skip _ P _ '&' '=' (by decide) hP (by decide)
  have s4 : countOcc "loc=".data ("&make=".data ++ (M ++ ("&mdl=".data ++
        (D ++ ("&prx=".data ++ (R ++ ("&rcp=".data ++ C))))))) =
      countOcc "loc=".data (M ++ ("&mdl=".data ++ (D ++ ("&prx=".data ++
        (R ++ ("&rcp=".data ++ C)))))) :=
    countOcc_strip _ "&make=".data _ (by decide)
  have s5 : countOcc "loc=".data (M ++ ("&mdl=".data ++ (D ++ ("&prx=".data ++
        (R ++ ("&rcp=".data ++ C)))))) =
      countOcc "loc=".data ("&mdl=".data ++ (D ++ ("&prx=".data ++
        (R ++ ("&rcp=".data ++ C))))) :=
    countOcc_skip _ M _ '&' '=' (by decide) hM (by decide)
  have s6 : countOcc "loc=".data ("&mdl=".data ++ (D ++ ("&prx=".data ++
        (R ++ ("&rcp=".data ++ C))))) =
      countOcc "loc=".data (D ++ ("&prx=".data ++ (R ++ ("&rcp=".data ++ C)))) :=
    countOcc_strip _ "&mdl=".data _ (by decide)
  have s7 : countOcc "loc=".data (D ++ ("&prx=".data ++ (R ++ ("&rcp=".data ++ C)))) =
      countOcc "loc=".data ("&prx=".data ++ (R ++ ("&rcp=".data ++ C))) :=
    countOcc_skip _ D _ '&' '=' (by decide) hD (by decide)
  have s8 : countOcc "loc=".data ("&prx=".data ++ (R ++ ("&rcp=".data ++ C))) =
      countOcc "loc=".data (R ++ ("&rcp=".data ++ C)) :=
    countOcc_strip _ "&prx=".data _ (by decide)
  have s9 : countOcc "loc=".data (R ++ ("&rcp=".data ++ C)) =
      countOcc "loc=".data ("&rcp=".data ++ C) :=
    countOcc_skip _ R _ '&' '=' (by decide) hR (by decide)
  have s10 : countOcc "loc=".data ("&rcp=".data ++ C) = countOcc "loc=".data C :=
    countOcc_strip _ "&rcp=".data _ (by decide)
  have s11 : countOcc "loc=".data C = 0 := countOcc_zero _ C '=' (by decide) hC
  omega

theorem countOcc_url_make (P M D R C : PyStr) (hP : '=' ∉ P) (hM : '=' ∉ M)
    (hD : '=' ∉ D) (hR : '=' ∉ R) (hC : '=' ∉ C) :
    countOcc "make=".data ("https://www.autotrader.ca/cars/?loc=".data ++ (P ++ ("&make=".data ++ (M ++ ("&mdl=".data ++ (D ++ ("&prx=".data ++ (R ++ ("&rcp=".data ++ (C)))))))))) = 1 := by
  have s1 : countOcc "make=".data ("https://www.autotrader.ca/cars/?loc=".data ++ (P ++ ("&make=".data ++ (M ++ ("&mdl=".data ++ (D ++ ("&prx=".data ++ (R ++ ("&rcp=".data ++ (C)))))))))) =
      countOcc "make=".data (P ++ ("&make=".data ++ (M ++ ("&mdl=".data ++ (D ++ ("&prx=".data ++ (R ++ ("&rcp=".data ++ (C))))))))) :=
    countOcc_strip _ "https://www.autotrader.ca/cars/?loc=".data _ (by decide)
  have s2 : countOcc "make=".data (P ++ ("&make=".data ++ (M ++ ("&mdl=".data ++ (D ++ ("&prx=".data ++ (R ++ ("&rcp=".data ++ (C))))))))) =
      countOcc "make=".data ("&make=".data ++ (M ++ ("&mdl=".data ++ (D ++ ("&prx=".data ++ (R ++ ("&rcp=".data ++ (C)))))))) :=
    countOcc_skip _ P _ '&' '=' (by decide) hP (by decide)
  have s3 : countOcc "make=".data ("&make=".data ++ (M ++ ("&mdl=".data ++ (D ++ ("&prx=".data ++ (R ++ ("&rcp=".data ++ (C)))))))) =
      countOcc "make=".data ("make=".data ++ (M ++ ("&mdl=".data ++ (D ++ ("&prx=".data ++ (R ++ ("&rcp=".data ++ (C)))))))) :=
    countOcc_cons_ne 'm' "ake=".data '&' _ (by decide)
  have s4 : countOcc "make=".data ("make=".data ++ (M ++ ("&mdl=".data ++ (D ++ ("&prx=".data ++ (R ++ ("&rcp=".data ++ (C)))))))) =
      1 + countOcc "make=".data (M ++ ("&mdl=".data ++ (D ++ ("&prx=".data ++ (R ++ ("&rcp=".data ++ (C))))))) :=
    countOcc_head _ _ (by decide) (by decide)
  have s5 : countOcc "make=".data (M ++ ("&mdl=".data ++ (D ++ ("&prx=".data ++ (R ++ ("&rcp=".data ++ (C))))))) =
      countOcc "make=".data ("&mdl=".data ++ (D ++ ("&prx=".data ++ (R ++ ("&rcp=".data ++ (C)))))) :=
    countOcc_skip _ M _ '&' '=' (by decide) hM (by decide)
  have s6 : countOcc "make=".data ("&mdl=".data ++ (D ++ ("&prx=".data ++ (R ++ ("&rcp=".data ++ (C)))))) =
      countOcc "make=".data (D ++ ("&prx=".data ++ (R ++ ("&rcp=".data ++ (C))))) :=
    countOcc_strip _ "&mdl=".data _ (by decide)
  have s7 : countOcc "make=".data (D ++ ("&prx=".data ++ (R ++ ("&rcp=".data ++ (C))))) =
      countOcc "make=".data ("&prx=".data ++ (R ++ ("&rcp=".data ++ (C)))) :=
    countOcc_skip _ D _ '&' '=' (by decide) hD (by decide)
  have s8 : countOcc "make=".data ("&prx=".data ++ (R ++ ("&rcp=".data ++ (C)))) =
      countOcc "make=".data (R ++ ("&rcp=".data ++ (C))) :=
    countOcc_strip _ "&prx=".data _ (by decide)
  have s9 : countOcc "make=".data (R ++ ("&rcp=".data ++ (C))) =
      countOcc "make=".data ("&rcp=".data ++ (C)) :=
    countOcc_skip _ R _ '&' '=' (by decide) hR (by decide)
  have s10 : countOcc "make=".data ("&rcp=".data ++ (C)) =
      countOcc "make=".data (C) :=
    countOcc_strip _ "&rcp=".data _ (by decide)
  have s11 : countOcc "make=".data (C) =
      0 :=
    countOcc_zero _ C '=' (by decide) hC
  omega

theorem countOcc_url_mdl (P M D R C : PyStr) (hP : '=' ∉ P) (hM : '=' ∉ M)
    (hD : '=' ∉ D) (hR : '=' ∉ R) (hC : '=' ∉ C) :
    countOcc "mdl=".data ("https://www.autotrader.ca/cars/?loc=".data ++ (P ++ ("&make=".data ++ (M ++ ("&mdl=".data ++ (D ++ ("&prx=".data ++ (R ++ ("&rcp=".data ++ (C)))))))))) = 1 := by
  have s1 : countOcc "mdl=".data ("https://www.autotrader.ca/cars/?loc=".data ++ (P ++ ("&make=".data ++ (M ++ ("&mdl=".data ++ (D ++ ("&prx=".data ++ (R ++ ("&rcp=".data ++ (C)))))))))) =
      countOcc "mdl=".data (P ++ ("&make=".data ++ (M ++ ("&mdl=".data ++ (D ++ ("&prx=".data ++ (R ++ ("&rcp=".data ++ (C))))))))) :=
    countOcc_strip _ "https://www.autotrader.ca/cars/?loc=".data _ (by decide)
  have s2 : countOcc "mdl=".data (P ++ ("&make=".data ++ (M ++ ("&mdl=".data ++ (D ++ ("&prx=".data ++ (R ++ ("&rcp=".data ++ (C))))))))) =
      countOcc "mdl=".data ("&make=".data ++ (M ++ ("&mdl=".data ++ (D ++ ("&prx=".data ++ (R ++ ("&rcp=".data ++ (C)))))))) :=
    countOcc_skip _ P _ '&' '=' (by decide) hP (by decide)
  have s3 : countOcc "mdl=".data ("&make=".data ++ (M ++ ("&mdl=".data ++ (D ++ ("&prx=".data ++ (R ++ ("&rcp=".data ++ (C)))))))) =
      countOcc "mdl=".data (M ++ ("&mdl=".data ++ (D ++ ("&prx=".data ++ (R ++ ("&rcp=".data ++ (C))))))) :=
    countOcc_strip _ "&make=".data _ (by decide)
  have s4 : countOcc "mdl=".data (M ++ ("&mdl=".data ++ (D ++ ("&prx=".data ++ (R ++ ("&rcp=".data ++ (C))))))) =
      countOcc "mdl=".data ("&mdl=".data ++ (D ++ ("&prx=".data ++ (R ++ ("&rcp=".data ++ (C)))))) :=
    countOcc_skip _ M _ '&' '=' (by decide) hM (by decide)
  have s5 : countOcc "mdl=".data ("&mdl=".data ++ (D ++ ("&prx=".data ++ (R ++ ("&rcp=".data ++ (C)))))) =
      countOcc "mdl=".data ("mdl=".data ++ (D ++ ("&prx=".data ++ (R ++ ("&rcp=".data ++ (C)))))) :=
    countOcc_cons_ne 'm' "dl=".data '&' _ (by decide)
  have s6 : countOcc "mdl=".data ("mdl=".data ++ (D ++ ("&prx=".data ++ (R ++ ("&rcp=".data ++ (C)))))) =
      1 + countOcc "mdl=".data (D ++ ("&prx=".data ++ (R ++ ("&rcp=".data ++ (C))))) :=
    countOcc_head _ _ (by decide) (by decide)
  have s7 : countOcc "mdl=".data (D ++ ("&prx=".data ++ (R ++ ("&rcp=".data ++ (C))))) =
      countOcc "mdl=".data ("&prx=".data ++ (R ++ ("&rcp=".data ++ (C)))) :=
    countOcc_skip _ D _ '&' '=' (by decide) hD (by decide)
  have s8 : countOcc "mdl=".data ("&prx=".data ++ (R ++ ("&rcp=".data ++ (C)))) =
      countOcc "mdl=".data (R ++ ("&rcp=".data ++ (C))) :=
    countOcc_strip _ "&prx=".data _ (by decide)
  have s9 : countOcc "mdl=".data (R ++ ("&rcp=".data ++ (C))) =
      countOcc "mdl=".data ("&rcp=".data ++ (C)) :=
    countOcc_skip _ R _ '&' '=' (by decide) hR (by decide)
  have s10 : countOcc "mdl=".data ("&rcp=".data ++ (C)) =
      countOcc "mdl=".data (C) :=
    countOcc_strip _ "&rcp=".data _ (by decide)
  have s11 : countOcc "mdl=".data (C) =
      0 :=
    countOcc_zero _ C '=' (by decide) hC
  omega

theorem countOcc_url_prx (P M D R C : PyStr) (hP : '=' ∉ P) (hM : '=' ∉ M)
    (hD : '=' ∉ D) (hR : '=' ∉ R) (hC : '=' ∉ C) :
    countOcc "prx=".data ("https://www.autotrader.ca/cars/?loc=".data ++ (P ++ ("&make=".data ++ (M ++ ("&mdl=".data ++ (D ++ ("&prx=".data ++ (R ++ ("&rcp=".data ++ (C)))))))))) = 1 := by
  have s1 : countOcc "prx=".data ("https://www.autotrader.ca/cars/?loc=".data ++ (P ++ ("&make=".data ++ (M ++ ("&mdl=".data ++ (D ++ ("&prx=".data ++ (R ++ ("&rcp=".data ++ (C)))))))))) =
      countOcc "prx=".data (P ++ ("&make=".data ++ (M ++ ("&mdl=".data ++ (D ++ ("&prx=".data ++ (R ++ ("&rcp=".data ++ (C))))))))) :=
    countOcc_strip _ "https://www.autotrader.ca/cars/?loc=".data _ (by decide)
  have s2 : countOcc "prx=".data (P ++ ("&make=".data ++ (M ++ ("&mdl=".data ++ (D ++ ("&prx=".data ++ (R ++ ("&rcp=".data ++ (C))))))))) =
      countOcc "prx=".data ("&make=".data ++ (M ++ ("&mdl=".data ++ (D ++ ("&prx=".data ++ (R ++ ("&rcp=".data ++ (C)))))))) :=
    countOcc_skip _ P _ '&' '=' (by decide) hP (by decide)
  have s3 : countOcc "prx=".data ("&make=".data ++ (M ++ ("&mdl=".data ++ (D ++ ("&prx=".data ++ (R ++ ("&rcp=".data ++ (C)))))))) =
      countOcc "prx=".data (M ++ ("&mdl=".data ++ (D ++ ("&prx=".data ++ (R ++ ("&rcp=".data ++ (C))))))) :=
    countOcc_strip _ "&make=".data _ (by decide)
  have s4 : countOcc "prx=".data (M ++ ("&mdl=".data ++ (D ++ ("&prx=".data ++ (R ++ ("&rcp=".data ++ (C))))))) =
      countOcc "prx=".data ("&mdl=".data ++ (D ++ ("&prx=".data ++ (R ++ ("&rcp=".data ++ (C)))))) :=
    countOcc_skip _ M _ '&' '=' (by decide) hM (by decide)
  have s5 : countOcc "prx=".data ("&mdl=".data ++ (D ++ ("&prx=".data ++ (R ++ ("&rcp=".data ++ (C)))))) =
      countOcc "prx=".data (D ++ ("&prx=".data ++ (R ++ ("&rcp=".data ++ (C))))) :=
    countOcc_strip _ "&mdl=".data _ (by decide)
  have s6 : countOcc "prx=".data (D ++ ("&prx=".data ++ (R ++ ("&rcp=".data ++ (C))))) =
      countOcc "prx=".data ("&prx=".data ++ (R ++ ("&rcp=".data ++ (C)))) :=
    countOcc_skip _ D _ '&' '=' (by decide) hD (by decide)
  have s7 : countOcc "prx=".data ("&prx=".data ++ (R ++ ("&rcp=".data ++ (C)))) =
      countOcc "prx=".data ("prx=".data ++ (R ++ ("&rcp=".data ++ (C)))) :=
    countOcc_cons_ne 'p' "rx=".data '&' _ (by decide)
  have s8 : countOcc "prx=".data ("prx=".data ++ (R ++ ("&rcp=".data ++ (C)))) =
      1 + countOcc "prx=".data (R ++ ("&rcp=".data ++ (C))) :=
    countOcc_head _ _ (by decide) (by decide)
  have s9 : countOcc "prx=".data (R ++ ("&rcp=".data ++ (C))) =
      countOcc "prx=".data ("&rcp=".data ++ (C)) :=
    countOcc_skip _ R _ '&' '=' (by decide) hR (by decide)
  have s10 : countOcc "prx=".data ("&rcp=".data ++ (C)) =
      countOcc "prx=".data (C) :=
    countOcc_strip _ "&rcp=".data _ (by decide)
  have s11 : countOcc "prx=".data (C) =
      0 :=
    countOcc_zero _ C '=' (by decide) hC
  omega

theorem countOcc_url_rcp (P M D R C : PyStr) (hP : '=' ∉ P) (hM : '=' ∉ M)
    (hD : '=' ∉ D) (hR : '=' ∉ R) (hC : '=' ∉ C) :
    countOcc "rcp=".data ("https://www.autotrader.ca/cars/?loc=".data ++ (P ++ ("&make=".data ++ (M ++ ("&mdl=".data ++ (D ++ ("&prx=".data ++ (R ++ ("&rcp=".data ++ (C)))))))))) = 1 := by
  have s1 : countOcc "rcp=".data ("https://www.autotrader.ca/cars/?loc=".data ++ (P ++ ("&make=".data ++ (M ++ ("&mdl=".data ++ (D ++ ("&prx=".data ++ (R ++ ("&rcp=".data ++ (C)))))))))) =
      countOcc "rcp=".data (P ++ ("&make=".data ++ (M ++ ("&mdl=".data ++ (D ++ ("&prx=".data ++ (R ++ ("&rcp=".data ++ (C))))))))) :=
    countOcc_strip _ "https://www.autotrader.ca/cars/?loc=".data _ (by decide)
  have s2 : countOcc "rcp=".data (P ++ ("&make=".data ++ (M ++ ("&mdl=".data ++ (D ++ ("&prx=".data ++ (R ++ ("&rcp=".data ++ (C))))))))) =
      countOcc "rcp=".data ("&make=".data ++ (M ++ ("&mdl=".data ++ (D ++ ("&prx=".data ++ (R ++ ("&rcp=".data ++ (C)))))))) :=
    countOcc_skip _ P _ '&' '=' (by decide) hP (by decide)
  have s3 : countOcc "rcp=".data ("&make=".data ++ (M ++ ("&mdl=".data ++ (D ++ ("&prx=".data ++ (R ++ ("&rcp=".data ++ (C)))))))) =
      countOcc "rcp=".data (M ++ ("&mdl=".data ++ (D ++ ("&prx=".data ++ (R ++ ("&rcp=".data ++ (C))))))) :=
    countOcc_strip _ "&make=".data _ (by decide)
  have s4 : countOcc "rcp=".data (M ++ ("&mdl=".data ++ (D ++ ("&prx=".data ++ (R ++ ("&rcp=".data ++ (C))))))) =
      countOcc "rcp=".data ("&mdl=".data ++ (D ++ ("&prx=".data ++ (R ++ ("&rcp=".data ++ (C)))))) :=
    countOcc_skip _ M _ '&' '=' (by decide) hM (by decide)
  have s5 : countOcc "rcp=".data ("&mdl=".data ++ (D ++ ("&prx=".data ++ (R ++ ("&rcp=".data ++ (C)))))) =
      countOcc "rcp=".data (D ++ ("&prx=".data ++ (R ++ ("&rcp=".data ++ (C))))) :=
    countOcc_strip _ "&mdl=".data _ (by decide)
  have s6 : countOcc "rcp=".data (D ++ ("&prx=".data ++ (R ++ ("&rcp=".data ++ (C))))) =
      countOcc "rcp=".data ("&prx=".data ++ (R ++ ("&rcp=".data ++ (C)))) :=
    countOcc_skip _ D _ '&' '=' (by decide) hD (by decide)
  have s7 : countOcc "rcp=".data ("&prx=".data ++ (R ++ ("&rcp=".data ++ (C)))) =
      countOcc "rcp=".data (R ++ ("&rcp=".data ++ (C))) :=
    countOcc_strip _ "&prx=".data _ (by decide)
  have s8 : countOcc "rcp=".data (R ++ ("&rcp=".data ++ (C))) =
      countOcc "rcp=".data ("&rcp=".data ++ (C)) :=
    countOcc_skip _ R _ '&' '=' (by decide) hR (by decide)
  have s9 : countOcc "rcp=".data ("&rcp=".data ++ (C)) =
      countOcc "rcp=".data ("rcp=".data ++ (C)) :=
    countOcc_cons_ne 'r' "cp=".data '&' _ (by decide)
  have s10 : countOcc "rcp=".data ("rcp=".data ++ (C)) =
      1 + countOcc "rcp=".data (C) :=
    countOcc_head _ _ (by decide) (by decide)
  have s11 : countOcc "rcp=".data (C) =
      0 :=
    countOcc_zero _ C '=' (by decide) hC
  omega

/-- Claim C7 (amended): for valid inputs (non-empty make and model,
positive radius, page size in the allowed set) whose make, model and
postal code contain no equals-sign character, the constructed URL has the
documented query form, contains exactly one occurrence of each parameter
token, and spaces of the inputs are percent-encoded so no literal space
remains. -/
theorem search_url_tokens (make model postal : PyStr) (radius display : Int)
    (hmk : make ≠ []) (hmd : model ≠ []) (hrad : 0 < radius)
    (hdisp : display = 15 ∨ display = 25 ∨ display = 50 ∨ display = 100)
    (e1 : '=' ∉ make) (e2 : '=' ∉ model) (e3 : '=' ∉ postal) :
    countOcc "loc=".data (search_url make model postal radius display) = 1 ∧
    countOcc "make=".data (search_url make model postal radius display) = 1 ∧
    countOcc "mdl=".data (search_url make model postal radius display) = 1 ∧
    countOcc "prx=".data (search_url make model postal radius display) = 1 ∧
    countOcc "rcp=".data (search_url make model postal radius display) = 1 ∧
    ' ' ∉ search_url make model postal radius display ∧
    search_url make model postal radius display =
      "https://www.autotrader.ca/cars/?loc=".data ++ (encSp postal ++
        ("&make=".data ++ (encSp make ++ ("&mdl=".data ++ (encSp model ++
          ("&prx=".data ++ (encSp (intStr radius) ++
            ("&rcp=".data ++ encSp (intStr display))))))))) := by
  have hP := not_mem_encSp_eq postal e3
  have hM := not_mem_encSp_eq make e1
  have hD := not_mem_encSp_eq model e2
  have hR := not_mem_encSp_eq (intStr radius) (intStr_no_eq radius)
  have hC := not_mem_encSp_eq (intStr display) (intStr_no_eq display)
  rw [search_url_form]
  refine ⟨countOcc_url_loc _ _ _ _ _ hP hM hD hR hC,
    countOcc_url_make _ _ _ _ _ hP hM hD hR hC,
    countOcc_url_mdl _ _ _ _ _ hP hM hD hR hC,
    countOcc_url_prx _ _ _ _ _ hP hM hD hR hC,
    countOcc_url_rcp _ _ _ _ _ hP hM hD hR hC, ?_, rfl⟩
  intro hsp
  rcases List.mem_append.mp hsp with h | h
  · exact absurd h (by decide)
  rcases List.mem_append.mp h with h | h
  · exact not_mem_encSp_space postal h
  rcases List.mem_append.mp h with h | h
  · exact absurd h (by decide)
  rcases List.mem_append.mp h with h | h
  · exact not_mem_encSp_space make h
  rcases List.mem_append.mp h with h | h
  · exact absurd h (by decide)
  rcases List.mem_append.mp h with h | h
  · exact not_mem_encSp_space model h
  rcases List.mem_append.mp h with h | h
  · exact absurd h (by decide)
  rcases List.mem_append.mp h with h | h
  · exact not_mem_encSp_space (intStr radius) h
  rcases List.mem_append.mp h with h | h
  · exact absurd h (by decide)
  exact not_mem_encSp_space (intStr display) h

set_option maxHeartbeats 1000000 in
/-- Claim C7 counterexample: the inputs make "a", model "b", postal code
"loc=" (the claim allows any postal code string), radius 100, page size 15
are valid by the claim's own definition, yet the constructed URL contains
the token loc= twice rather than exactly once. -/
theorem search_url_token_injection :
    ("a".data ≠ ([] : PyStr)) ∧ ("b".data ≠ ([] : PyStr)) ∧ ((0 : Int) < 100) ∧
    countOcc "loc=".data (search_url "a".data "b".data "loc=".data 100 15) = 2 ∧
    countOcc "loc=".data (search_url "a".data "b".data "loc=".data 100 15) ≠ 1 := by
  refine ⟨by decide, by decide, by decide, by decide, by decide⟩

set_option maxHeartbeats 1000000 in
/-- Claim C7 witness: the amended behavior at the concrete inputs of the
run loop (make Mazda, model CX-5, postal code B3M 0L8 containing a space,
radius 100, page size 100). -/
theorem search_url_tokens_witness :
    countOcc "loc=".data (search_url "Mazda".data "CX-5".data "B3M 0L8".data 100 100) = 1 ∧
    countOcc "rcp=".data (search_url "Mazda".data "CX-5".data "B3M 0L8".data 100 100) = 1 ∧
    ' ' ∉ search_url "Mazda".data "CX-5".data "B3M 0L8".data 100 100 := by
  have h := search_url_tokens "Mazda".data "CX-5".data "B3M 0L8".data 100 100
    (by decide) (by decide) (by decide) (Or.inr (Or.inr (Or.inr rfl)))
    (by decide) (by decide) (by decide)
  exact ⟨h.1, h.2.2.2.2.1, h.2.2.2.2.2.1⟩
